import Mathlib

/-!
Shallow embedding of the langraph_mcp_agent repository (src/agent.py and
src/telegram_bot.py) and verification of the frozen claims about it.

Python strings are modelled as Lean `String` / `List Char`; Python `dict`s as
association lists where a later binding for the same key overrides an earlier
one (dict assignment semantics); Python exceptions as `Option`/`Except` results;
Python truthiness is made explicit at each use site.
-/

namespace Agent

abbrev Chars := List Char

/-- ASCII lower-casing of one character (the keywords and inputs the code
compares are ASCII; Python `str.lower` agrees with this on ASCII). -/
def lcChar (c : Char) : Char :=
  if 'A' ≤ c ∧ c ≤ 'Z' then Char.ofNat (c.toNat + 32) else c

/-- Whitespace as recognised by Python `str.strip` / regex `\s` (ASCII part). -/
def isPySpace (c : Char) : Bool :=
  c == ' ' || c == '\t' || c == '\n' || c == '\r' || c == Char.ofNat 11 || c == Char.ofNat 12

def pyStripChars (s : Chars) : Chars :=
  ((s.dropWhile isPySpace).reverse.dropWhile isPySpace).reverse

/-- Python `str.strip()`. -/
def pyStrip (s : String) : String := ⟨pyStripChars s.data⟩

/-- Python `str.lower()` (ASCII). -/
def pyLower (s : String) : String := ⟨s.data.map lcChar⟩

/-- `isPre p s` : `p` is an initial segment of `s`. -/
def isPre : Chars → Chars → Bool
  | [], _ => true
  | _ :: _, [] => false
  | a :: as, b :: bs => a == b && isPre as bs

/-- Python `needle in hay` for strings: contiguous substring test. -/
def hasSub : Chars → Chars → Bool
  | hay, needle =>
    isPre needle hay ||
      (match hay with
       | [] => false
       | _ :: t => hasSub t needle)

/-- Numeric value of a digit string (`int` on an all-digit string). -/
def natOfDigits (s : Chars) : Nat :=
  s.foldl (fun a c => a * 10 + (c.toNat - 48)) 0

/-- Length of the maximal run of characters satisfying `p` at the front. -/
def runLen (p : Char → Bool) : Chars → Nat
  | [] => 0
  | c :: t => if p c then runLen p t + 1 else 0

/-- Python `str.split(sep)` for a one-character separator. -/
def splitCh (sep : Char) : Chars → List Chars
  | [] => [[]]
  | c :: t =>
    if c == sep then [] :: splitCh sep t
    else
      match splitCh sep t with
      | p :: ps => (c :: p) :: ps
      | [] => [[c]]

/-- Python `str.split(sep)` for a multi-character separator; `fuel` bounds the
recursion (always called with `fuel = length of the string`, which suffices
because each step consumes at least one character). -/
def splitSubFuel (sep : Chars) : Nat → Chars → List Chars
  | _, [] => [[]]
  | 0, s => [s]
  | Nat.succ n, c :: t =>
    if !sep.isEmpty && isPre sep (c :: t) then
      [] :: splitSubFuel sep n (List.drop (sep.length - 1) t)
    else
      match splitSubFuel sep n t with
      | p :: ps => (c :: p) :: ps
      | [] => [[c]]

def splitSub (sep s : Chars) : List Chars := splitSubFuel sep s.length s

/-- Python `int(s)` on a string: strips whitespace, accepts an optional sign
followed by digits, otherwise raises (modelled as `none`).
(The underscore digit-grouping form of Python ints is not modelled; no input
relevant here contains it.) -/
def pyParseIntChars (s : Chars) : Option Int :=
  match pyStripChars s with
  | [] => none
  | '+' :: ds =>
    if ds.isEmpty then none
    else if ds.all Char.isDigit then some (Int.ofNat (natOfDigits ds)) else none
  | '-' :: ds =>
    if ds.isEmpty then none
    else if ds.all Char.isDigit then some (-(Int.ofNat (natOfDigits ds))) else none
  | ds =>
    if ds.all Char.isDigit then some (Int.ofNat (natOfDigits ds)) else none

/-- Python `f"{n:02d}"`: zero-pad to width 2 (a negative number already has
width ≥ 2, so only single digits 0–9 get padded, as in Python). -/
def pyFmt02 (n : Int) : String :=
  let s := toString n
  if s.length < 2 then "0" ++ s else s

/-- Lookup in an association list where a later binding for the same key
overrides an earlier one — the semantics of Python `dict` assignment followed
by `dict.get`. -/
def dictGet {α : Type} : List (String × α) → String → Option α
  | [], _ => none
  | (k, v) :: rest, key =>
    match dictGet rest key with
    | some r => some r
    | none => if k = key then some v else none

/-- Concatenation of the images of `f` over a list (`List.bind`). -/
def collect {α β : Type} (f : α → List β) : List α → List β
  | [] => []
  | a :: l => f a ++ collect f l

/-!
## Regular-expression fragment

`parse_duration_minutes` (src/agent.py:685-717) searches the input with four
`re.search` patterns.  The fragment of Python regular expressions those
patterns use is embedded as the `RE` element type below; a pattern is a
sequence of elements.  `reCands` lists, in Python's backtracking preference
order, the ways one element can consume a prefix of the input (together with
the capture groups it produces), `matchSeq` anchors a pattern at the current
position, and `reSearch` implements `re.search`'s leftmost-match scan.
-/

/-- One element of the regex patterns used by the duration parser:
case-insensitive literal (`re.IGNORECASE` is set), `\s*`, a capturing `(\d+)`,
an optional capturing `(\d+)?`, a lazy `.*?`, and an optional literal char. -/
inductive RE where
  | lit (s : Chars)
  | ws
  | digits
  | optDigits
  | lazyAny
  | optLit (c : Char)

/-- The capture groups of a match: `match.groups()`, each group either absent
or the numeric value of the digit string it captured (every group in the four
patterns is a `(\d+)`). -/
abbrev Groups := List (Option Nat)

/-- Case-insensitive literal match at the front; returns the rest on success. -/
def ciTake : Chars → Chars → Option Chars
  | [], s => some s
  | _ :: _, [] => none
  | l :: ls, c :: cs => if lcChar l == lcChar c then ciTake ls cs else none

/-- The ways `e` can consume a prefix of `s`, as (captures, rest) pairs, in
Python's backtracking preference order: greedy `\s*` and `(\d+)` try longest
first, `(\d+)?` prefers capturing, `.*?` is lazy (shortest first, never past a
newline since `re.DOTALL` is not set), an optional literal prefers presence. -/
def reCands : RE → Chars → List (Groups × Chars)
  | .lit l, s =>
    match ciTake l s with
    | some r => [([], r)]
    | none => []
  | .ws, s =>
    let m := runLen isPySpace s
    (List.range (m + 1)).reverse.map (fun k => ([], s.drop k))
  | .digits, s =>
    let m := runLen Char.isDigit s
    ((List.range m).map (fun i => m - i)).map
      (fun k => ([some (natOfDigits (s.take k))], s.drop k))
  | .optDigits, s =>
    let m := runLen Char.isDigit s
    (((List.range m).map (fun i => m - i)).map
      (fun k => ([some (natOfDigits (s.take k))], s.drop k))) ++ [([none], s)]
  | .lazyAny, s =>
    let m := runLen (fun c => c != '\n') s
    (List.range (m + 1)).map (fun k => ([], s.drop k))
  | .optLit c, s =>
    (match s with
     | d :: r => if lcChar c == lcChar d then [([], r)] else []
     | [] => []) ++ [([], s)]

/-- Match a pattern anchored at the current position, backtracking through the
candidate consumptions of each element; returns the groups of the first
(preference-ordered) full match. -/
def matchSeq : List RE → Chars → Option Groups
  | [], _ => some []
  | e :: es, s =>
    (reCands e s).findSome? fun gr =>
      match matchSeq es gr.2 with
      | some gs => some (gr.1 ++ gs)
      | none => none

/-- `re.search`: try the pattern at each start position, leftmost first. -/
def reSearch (re : List RE) : Chars → Option Groups
  | [] => matchSeq re []
  | c :: t =>
    match matchSeq re (c :: t) with
    | some g => some g
    | none => reSearch re t

/-!
## Result parsers (src/agent.py:685-759)
-/

/-- Pattern `r'Duration:\s*(\d+)\s*min'` with its source string. -/
def pat1 : String × List RE :=
  ("Duration:\\s*(\\d+)\\s*min", [.lit "Duration:".data, .ws, .digits, .ws, .lit "min".data])

/-- Pattern `r'Duration:\s*(\d+)\s*hour.*?(\d+)?\s*min'` with its source string. -/
def pat2 : String × List RE :=
  ("Duration:\\s*(\\d+)\\s*hour.*?(\\d+)?\\s*min",
   [.lit "Duration:".data, .ws, .digits, .ws, .lit "hour".data, .lazyAny, .optDigits, .ws,
    .lit "min".data])

/-- Pattern `r'(\d+)\s*분'` with its source string. -/
def pat3 : String × List RE :=
  ("(\\d+)\\s*분", [.digits, .ws, .lit "분".data])

/-- Pattern `r'(\d+)\s*시간\s*(\d+)?\s*분?'` with its source string. -/
def pat4 : String × List RE :=
  ("(\\d+)\\s*시간\\s*(\\d+)?\\s*분?",
   [.digits, .ws, .lit "시간".data, .ws, .optDigits, .ws, .optLit '분'])

/-- The ordered pattern list of `parse_duration_minutes`. -/
def duration_patterns : List (String × List RE) := [pat1, pat2, pat3, pat4]

/-- The source's test `'hour' in pattern or '시간' in pattern` on a pattern's
source string. -/
def patternHourly (src : String) : Bool :=
  hasSub src.data "hour".data || hasSub src.data "시간".data

/-- Post-processing of a match's groups (src/agent.py:704-715): two present
groups give hours*60+minutes; otherwise the single value is multiplied by 60
exactly when the pattern mentions an hour unit.  (Group 0 is a mandatory
`(\d+)` in each of the four patterns, so the last arm is unreachable.) -/
def processGroups (src : String) (groups : Groups) : Nat :=
  match groups with
  | some h :: some m :: _ => h * 60 + m
  | some v :: _ => if patternHourly src then v * 60 else v
  | _ => 0

/-- The `for pattern in patterns` loop: first pattern whose search succeeds. -/
def findFirstPattern : List (String × List RE) → Chars → Option Nat
  | [], _ => none
  | (src, re) :: rest, s =>
    match reSearch re s with
    | some g => some (processGroups src g)
    | none => findFirstPattern rest s

/-- `parse_duration_minutes` (src/agent.py:685-717).  An empty string is falsy
(`if not directions_result`). -/
def parse_duration_minutes (s : String) : Option Nat :=
  if s.isEmpty then none
  else findFirstPattern duration_patterns s.data

/-- Lines 743-751 of the source: `departure_minutes` from the parsed hour and
minute and the total of duration and buffer, with the one-shot
previous-day correction `if departure_minutes < 0: departure_minutes += 24*60`. -/
def depMinutes (h m : Int) (d b : Nat) : Int :=
  let dm0 : Int := h * 60 + m - (Int.ofNat d + Int.ofNat b)
  if dm0 < 0 then dm0 + 24 * 60 else dm0

/-- `calculate_departure_time` (src/agent.py:720-759).  `duration_minutes` is
`Option Nat`: `none` models a missing (None) duration and `some 0` a zero one —
both falsy in the source's `if not event_time or not duration_minutes` guard.
Exceptions inside the `try` (wrong number of `:`-separated fields, non-numeric
fields) yield `none`; `//` and `%` are Python floor division and floor
modulus (`Int.fdiv`/`Int.fmod`). -/
def calculate_departure_time (event_time : String) (duration_minutes : Option Nat)
    (buffer_minutes : Nat) : Option String :=
  if event_time.isEmpty then none
  else
    match duration_minutes with
    | none => none
    | some 0 => none
    | some d =>
      if hasSub event_time.data [':'] then
        match (splitCh ':' event_time.data).map pyParseIntChars with
        | [some h, some m] =>
          let dm : Int := depMinutes h m d buffer_minutes
          some (pyFmt02 (Int.fdiv dm 60) ++ ":" ++ pyFmt02 (Int.fmod dm 60))
        | _ => none
      else none

/-!
## Human-in-the-loop approval gate (src/agent.py:83-132)
-/

/-- A Python value occurring in a tool-argument dict: the approval gate's edit
branch distinguishes `int` values from others. -/
inductive PyVal where
  | I (n : Int)
  | S (s : String)
  deriving DecidableEq

/-- A tool-argument dict (`args.items()` order preserved). -/
abbrev Args := List (String × PyVal)

/-- `TOOLS_REQUIRING_APPROVAL` (src/agent.py:35). -/
def TOOLS_REQUIRING_APPROVAL : List String := ["create_event", "delete_event", "update_event"]

/-- One iteration of the edit loop (src/agent.py:110-120): a blank (stripped)
input keeps the value; otherwise an `int` value is replaced by `int(new_value)`
when that conversion succeeds and by the raw string when it fails, and a
non-`int` value is replaced by the raw string. -/
def editOne (v : PyVal) (inp : String) : PyVal :=
  let nv := pyStrip inp
  if nv = "" then v
  else
    match v with
    | .I _ =>
      match pyParseIntChars nv.data with
      | some n => .I n
      | none => .S nv
    | .S _ => .S nv

/-- The edit loop over all parameters, reading console lines `f base`,
`f (base+1)`, … in parameter order. -/
def editArgs : Args → (Nat → String) → Nat → Args
  | [], _, _ => []
  | (k, v) :: rest, f, i => (k, editOne v (f i)) :: editArgs rest f (i + 1)

/-- `get_human_approval` (src/agent.py:83-132), the synchronous approval gate.
The console is modelled as a stream `inputs : Nat → String` of the successive
`input()` results; the return value is `(approved, args)` as in the source.
Each read input is `.strip().lower()`-normalised before comparison ("n"
cancels, "e" edits, anything else approves); an edit session reads one line
per parameter and ends with a confirm line, where "n" cancels. -/
def get_human_approval (_tool_name : String) (args : Args) (inputs : Nat → String) :
    Bool × Args :=
  let choice := pyLower (pyStrip (inputs 0))
  if choice = "n" then (false, args)
  else if choice = "e" then
    let modified := editArgs args inputs 1
    let confirm := pyLower (pyStrip (inputs (1 + args.length)))
    if confirm = "n" then (false, modified) else (true, modified)
  else (true, args)

/-!
## Tool registry / multiplexer (src/agent.py:137-219)

A provider configuration carries the data `connect_all` observes about one
configured server: its name, whether `connect()` succeeds, the tool names its
`list_tools()` declares, and its `call_tool` behaviour (the RPC round-trip,
abstracted as a function).  The registry state mirrors `MultiMCPClient`:
`connections`, the tool list (`self.tools`, by name), and `_tool_to_server`.
Python dict assignment is modelled by appending the binding and reading with
`dictGet` (last binding wins).
-/

structure ProviderConfig where
  pname : String
  connects : Bool
  catalog : List String
  impl : String → Args → String

structure Registry where
  connections : List (String × (String → Args → String))
  tools : List String
  toolToServer : List (String × String)

/-- One iteration of the `for name, script in servers.items()` loop of
`connect_all` (src/agent.py:180-209): on successful connect the provider is
recorded and each of its tools is registered; the `except` arm leaves the
registry unchanged (the failure is only logged). -/
def connectStep (reg : Registry) (c : ProviderConfig) : Registry :=
  if c.connects then
    { connections := reg.connections ++ [(c.pname, c.impl)]
      tools := reg.tools ++ c.catalog
      toolToServer := reg.toolToServer ++ c.catalog.map (fun t => (t, c.pname)) }
  else reg

/-- `MultiMCPClient.connect_all` (src/agent.py:178-209) over the configured
provider list (dict iteration order = insertion order). -/
def connect_all (configs : List ProviderConfig) : Registry :=
  configs.foldl connectStep { connections := [], tools := [], toolToServer := [] }

/-- `MultiMCPClient.call_tool` (src/agent.py:211-215).  `none` models an
uncaught exception (the `self.connections[server_name]` lookup raising
`KeyError`); `some r` is a normal return with result `r`.  An unregistered
name returns the literal "Tool not found: " message. -/
def call_tool (reg : Registry) (name : String) (args : Args) : Option String :=
  match dictGet reg.toolToServer name with
  | none => some ("Tool not found: " ++ name)
  | some server_name =>
    (dictGet reg.connections server_name).map (fun impl => impl name args)

/-- `MultiMCPClient.disconnect_all` (src/agent.py:217-219): a plain
`for conn in self.connections.values(): await conn.disconnect()` with no
exception handling.  Each connection is paired with whether its
`disconnect()` succeeds; the result is the list of providers whose teardown
was attempted together with `true` when the loop completed (an exception
aborts the loop and propagates). -/
def disconnect_all : List (String × Bool) → List String × Bool
  | [] => ([], true)
  | (n, ok) :: rest =>
    if ok then
      let r := disconnect_all rest
      (n :: r.1, r.2)
    else ([n], false)

/-- Last element of a list, if any. -/
def lastOf {α : Type} : List α → Option α
  | [] => none
  | a :: l =>
    match lastOf l with
    | some y => some y
    | none => some a

/-- Membership test on a list of strings. -/
def elemStr : List String → String → Bool
  | [], _ => false
  | a :: l, t => a == t || elemStr l t

/-- The provider that ends up owning tool `t`: the last configured provider
that connects successfully and declares `t` (used to state the
last-registered-wins collision policy). -/
def lastOwnerCfg (configs : List ProviderConfig) (t : String) : Option ProviderConfig :=
  lastOf (configs.filter (fun c => c.connects && elemStr c.catalog t))

/-!
## Workflow engine nodes (src/agent.py:241-680)
-/

/-- The intent-string mapping of `classify_intent` (src/agent.py:279-289):
substring tests on the classifier's response, in source order, defaulting to
"general". -/
def parse_intent (t : String) : String :=
  if hasSub t.data "check_schedule".data then "check_schedule"
  else if hasSub t.data "create_event".data then "create_event"
  else if hasSub t.data "search_place".data then "search_place"
  else if hasSub t.data "get_directions".data then "get_directions"
  else "general"

/-- `classify_intent`'s post-processing of the language-model response:
`response.content.strip().lower()` then the substring cascade. -/
def classify_intent_of (response : String) : String :=
  parse_intent (pyLower (pyStrip response))

/-- The `routes` dict of `route_by_intent` (src/agent.py:632-638). -/
def routesList : List (String × String) :=
  [("check_schedule", "fetch_schedule"),
   ("create_event", "extract_event_info"),
   ("search_place", "execute_search_place"),
   ("get_directions", "execute_directions"),
   ("general", "generate_response")]

/-- `route_by_intent` (src/agent.py:626-639): `routes.get(intent,
"generate_response")`. -/
def route_by_intent (intent : String) : String :=
  (dictGet routesList intent).getD "generate_response"

/-- The `get_events` invocation built by `fetch_schedule`: either a
start/end-date call or a period call. -/
inductive GetEventsCall where
  | range (start_date end_date : String)
  | period (p : String)
  deriving DecidableEq

/-- The tool invocation `fetch_schedule` (src/agent.py:300-336) issues for a
given language-model period-extraction response: the response is
`.strip().lower()`-normalised; a text containing " to " is split on it and
sent as a date range (first two parts, stripped); otherwise the text itself is
sent as the period when it is one of the four shortcuts, else "today". -/
def fetch_schedule_call (respText : String) : GetEventsCall :=
  let pt := pyLower (pyStrip respText)
  if hasSub pt.data " to ".data then
    let dates := splitSub " to ".data pt.data
    .range (pyStrip ⟨dates.getD 0 []⟩) (pyStrip ⟨dates.getD 1 []⟩)
  else
    .period (if ["today", "tomorrow", "week", "next_week"].contains pt then pt else "today")

/-- A structured event record as the create-event branch sees it (the dict
produced by `extract_event_info` and enriched by `execute_create_event`);
`none` fields are absent keys. -/
structure EventInfo where
  title : Option String
  date : Option String
  start_time : Option String
  end_time : Option String
  location : Option String
  error : Option String
  result : Option String
  success : Option Bool
  deriving DecidableEq

/-- The tail of `fetch_schedule` (src/agent.py:317-336): issue the call, parse
the JSON result's "events" list; any exception (tool failure, unparseable
JSON, missing key — the last two folded into the abstract `parseEvents`)
yields an empty event list, never a raised error. -/
def fetch_schedule_events (respText : String) (tool : GetEventsCall → Except String String)
    (parseEvents : String → Option (List EventInfo)) : List EventInfo :=
  match tool (fetch_schedule_call respText) with
  | .error _ => []
  | .ok r =>
    match parseEvents r with
    | none => []
    | some evs => evs

/-- An observable action of the create-event node: consulting the approval
gate (with its decision), or invoking the tool registry. -/
inductive TraceEv where
  | gateCall (tool : String) (args : Args) (approved : Bool) (modified : Args)
  | toolCall (tool : String) (args : Args)
  deriving DecidableEq

/-- `execute_create_event` (src/agent.py:418-456), with its observable actions
traced in order.  `gate` abstracts `get_human_approval` (the CLI gate), `toolResp`
abstracts the registry result, `nowDate` is `datetime.now().strftime("%Y-%m-%d")`.
The gate is consulted only when `use_cli_approval` is true; otherwise
`mcp.call_tool("create_event", tool_args)` runs unconditionally. -/
def execute_create_event (use_cli_approval : Bool) (gate : String → Args → Bool × Args)
    (toolResp : String → Args → String) (nowDate : String) (events : List EventInfo) :
    List TraceEv × List EventInfo :=
  match events with
  | [] =>
    ([], [{ title := none, date := none, start_time := none, end_time := none,
            location := none, error := some "No event info to create", result := none,
            success := none }])
  | event_info :: _ =>
    if event_info.error.isSome then ([], events)
    else
      let date := event_info.date.getD nowDate
      let start_time := event_info.start_time.getD "09:00"
      let end_time := event_info.end_time.getD "10:00"
      let tool_args : Args :=
        [("title", .S (event_info.title.getD "New Event")),
         ("start", .S (date ++ "T" ++ start_time ++ ":00")),
         ("end", .S (date ++ "T" ++ end_time ++ ":00")),
         ("location", .S (event_info.location.getD ""))]
      if use_cli_approval then
        let ga := gate "create_event" tool_args
        let gev := TraceEv.gateCall "create_event" tool_args ga.1 ga.2
        if !ga.1 then
          ([gev],
           [{ title := none, date := none, start_time := none, end_time := none,
              location := none, error := some "User cancelled event creation",
              result := none, success := none }])
        else
          ([gev, TraceEv.toolCall "create_event" ga.2],
           [{ event_info with result := some (toolResp "create_event" ga.2),
                              success := some true }])
      else
        ([TraceEv.toolCall "create_event" tool_args],
         [{ event_info with result := some (toolResp "create_event" tool_args),
                            success := some true }])

/-- Whether a trace event is a consultation of the approval gate. -/
def isGateEv : TraceEv → Bool
  | .gateCall _ _ _ _ => true
  | .toolCall _ _ => false

/-- A well-formed extracted event, as `extract_event_info` produces it. -/
def demoEvent : EventInfo :=
  { title := some "Meeting", date := some "2026-10-13", start_time := some "15:00",
    end_time := some "16:00", location := none, error := none, result := none,
    success := none }

/-- The invocation arguments `execute_create_event` builds from `demoEvent`. -/
def demoEventArgs : Args :=
  [("title", .S "Meeting"), ("start", .S "2026-10-13T15:00:00"),
   ("end", .S "2026-10-13T16:00:00"), ("location", .S "")]

/-!
## Demonstration providers (used by witnesses)
-/

def demoCalendar : ProviderConfig :=
  { pname := "calendar", connects := true,
    catalog := ["get_events", "create_event", "update_event", "delete_event"],
    impl := fun _ _ => "calendar result" }

def demoMaps : ProviderConfig :=
  { pname := "maps", connects := false,
    catalog := ["search_places", "get_directions"],
    impl := fun _ _ => "maps result" }

def demoCalendar2 : ProviderConfig :=
  { pname := "calendar2", connects := true, catalog := ["get_events"],
    impl := fun _ _ => "calendar2 result" }

end Agent

-- Evaluations of the embedded definitions on concrete inputs.
example : Agent.pyStrip "  Hello " = "Hello" := by decide
example : Agent.pyLower " AbC" = " abc" := by decide
example : Agent.hasSub "next week to friday".data " to ".data = true := by decide
example : Agent.splitSub " to ".data "next week to friday".data =
    ["next week".data, "friday".data] := by decide
example : Agent.splitCh ':' "09:00".data = ["09".data, "00".data] := by decide
example : Agent.pyParseIntChars "09".data = some 9 := by decide
example : Agent.pyFmt02 (-1) = "-1" := by decide
example : Agent.pyFmt02 8 = "08" := by decide
example : Agent.parse_duration_minutes "Duration: 45 mins" = some 45 := by decide
example : Agent.parse_duration_minutes "1시간 30분" = some 30 := by decide
example : Agent.parse_duration_minutes "1시간" = some 60 := by decide
example : Agent.parse_duration_minutes "2 hour" = none := by decide
example : Agent.parse_duration_minutes "Duration: 1 hour 30 mins" = some 90 := by decide
example : Agent.parse_duration_minutes "" = none := by decide
example : Agent.parse_duration_minutes "no numbers here" = none := by decide
example : Agent.calculate_departure_time "09:00" (some 50) 10 = some "08:00" := by decide
example : Agent.calculate_departure_time "00:10" (some 30) 10 = some "23:30" := by decide
example : Agent.calculate_departure_time "All day" (some 30) 10 = none := by decide
example : Agent.calculate_departure_time "09:00" (some 0) 10 = none := by decide
example : Agent.calculate_departure_time "09:00" (some 2000) 10 = some "-1:30" := by decide
example : Agent.classify_intent_of " Check_schedule or create_event " = "check_schedule" := by
  decide
example : Agent.route_by_intent "create_event" = "extract_event_info" := by decide
example : Agent.fetch_schedule_call "next week to friday" =
    Agent.GetEventsCall.range "next week" "friday" := by decide
example : Agent.fetch_schedule_call "Tomorrow" = Agent.GetEventsCall.period "tomorrow" := by
  decide
example : Agent.fetch_schedule_call "whenever" = Agent.GetEventsCall.period "today" := by decide
example :
    Agent.get_human_approval "create_event" [("title", Agent.PyVal.S "x")] (fun _ => "N") =
      (false, [("title", Agent.PyVal.S "x")]) := by decide

namespace Agent

/-!
## Registry lemmas
-/

theorem collect_cons {α β : Type} (f : α → List β) (a : α) (l : List α) :
    collect f (a :: l) = f a ++ collect f l := rfl

theorem elemStr_cons (a : String) (l : List String) (t : String) :
    elemStr (a :: l) t = (a == t || elemStr l t) := rfl

theorem lastOf_cons {α : Type} (a : α) (l : List α) :
    lastOf (a :: l) =
      match lastOf l with
      | some y => some y
      | none => some a := rfl

theorem dictGet_cons {α : Type} (x : String) (v : α) (rest : List (String × α)) (k : String) :
    dictGet ((x, v) :: rest) k =
      match dictGet rest k with
      | some r => some r
      | none => if x = k then some v else none := rfl

theorem dictGet_append {α : Type} (a b : List (String × α)) (k : String) :
    dictGet (a ++ b) k =
      match dictGet b k with
      | some v => some v
      | none => dictGet a k := by
  induction a with
  | nil =>
    show dictGet b k = _
    cases dictGet b k <;> rfl
  | cons p rest ih =>
    obtain ⟨x, v⟩ := p
    show (match dictGet (rest ++ b) k with
          | some r => some r
          | none => if x = k then some v else none) = _
    rw [ih, dictGet_cons]
    cases dictGet b k <;> cases dictGet rest k <;> rfl

/-- Every tool of one provider's catalog maps to that provider's name. -/
theorem dictGet_map_const (cat : List String) (p t : String) :
    dictGet (cat.map (fun t' => (t', p))) t =
      if elemStr cat t then some p else none := by
  induction cat with
  | nil => rfl
  | cons a cat ih =>
    rw [List.map_cons, dictGet_cons, ih, elemStr_cons]
    cases hat : elemStr cat t
    · by_cases ha : a = t <;> simp [ha]
    · simp

/-- Unrolled form of `connect_all`: the three registry components are exactly
the concatenation of the contributions of the providers that connect. -/
theorem foldl_connectStep_spec (cs : List ProviderConfig) : ∀ reg : Registry,
    cs.foldl connectStep reg =
      { connections := reg.connections ++
          collect (fun c => [(c.pname, c.impl)]) (cs.filter (fun c => c.connects)),
        tools := reg.tools ++ collect (fun c => c.catalog) (cs.filter (fun c => c.connects)),
        toolToServer := reg.toolToServer ++
          collect (fun c => c.catalog.map (fun t => (t, c.pname)))
            (cs.filter (fun c => c.connects)) } := by
  induction cs with
  | nil => intro reg; simp [collect]
  | cons c cs ih =>
    intro reg
    cases hc : c.connects
    · simp [List.foldl_cons, connectStep, hc, ih, List.filter_cons]
    · simp [List.foldl_cons, connectStep, hc, ih, collect, List.filter_cons,
        List.append_assoc]

theorem connect_all_spec (configs : List ProviderConfig) :
    connect_all configs =
      { connections := collect (fun c => [(c.pname, c.impl)])
          (configs.filter (fun c => c.connects)),
        tools := collect (fun c => c.catalog) (configs.filter (fun c => c.connects)),
        toolToServer := collect (fun c => c.catalog.map (fun t => (t, c.pname)))
          (configs.filter (fun c => c.connects)) } := by
  simpa using foldl_connectStep_spec configs { connections := [], tools := [], toolToServer := [] }

/-- A name that is not the name of any connected provider is absent from the
connections map. -/
theorem dictGet_conn_none (L : List ProviderConfig) (p : String)
    (h : ∀ c ∈ L, c.pname ≠ p) :
    dictGet (collect (fun c => [(c.pname, c.impl)]) L) p = none := by
  induction L with
  | nil => rfl
  | cons c L ih =>
    have hc : c.pname ≠ p := h c (List.mem_cons_self c L)
    have hr := ih (fun c' hc' => h c' (List.mem_cons_of_mem c hc'))
    rw [collect_cons, List.singleton_append, dictGet_cons, hr, if_neg hc]

/-- A connected provider always has an entry in the connections map. -/
theorem dictGet_conn_of_mem (L : List ProviderConfig) (c : ProviderConfig) (hc : c ∈ L) :
    ∃ impl, dictGet (collect (fun c => [(c.pname, c.impl)]) L) c.pname = some impl := by
  induction L with
  | nil => cases hc
  | cons c' L ih =>
    rw [collect_cons, List.singleton_append]
    simp only [dictGet_cons]
    cases hL : dictGet (collect (fun c => [(c.pname, c.impl)]) L) c.pname with
    | some impl => exact ⟨impl, rfl⟩
    | none =>
      rcases List.mem_cons.mp hc with h | h
      · exact ⟨c'.impl, by rw [h, if_pos rfl]⟩
      · rcases ih h with ⟨impl, himpl⟩
        rw [himpl] at hL; cases hL

/-- The tool-to-server map built by the providers `L` records, for each tool,
the name of the last provider in `L` whose catalog declares it. -/
theorem dictGet_t2s_last (L : List ProviderConfig) (t : String) :
    dictGet (collect (fun c => c.catalog.map (fun t' => (t', c.pname))) L) t =
      (lastOf (L.filter (fun c => elemStr c.catalog t))).map (fun c => c.pname) := by
  induction L with
  | nil => rfl
  | cons c L ih =>
    rw [collect_cons, dictGet_append, ih, dictGet_map_const, List.filter_cons]
    cases hq : elemStr c.catalog t <;>
      cases hl : lastOf (L.filter (fun c => elemStr c.catalog t)) <;>
        simp [lastOf_cons, hl, hq]

/-- A recorded server name comes from some connected provider. -/
theorem dictGet_t2s_some (L : List ProviderConfig) (t srv : String)
    (h : dictGet (collect (fun c => c.catalog.map (fun t' => (t', c.pname))) L) t = some srv) :
    ∃ c ∈ L, c.pname = srv := by
  induction L with
  | nil => cases h
  | cons c L ih =>
    rw [collect_cons, dictGet_append] at h
    cases hL : dictGet (collect (fun c => c.catalog.map (fun t' => (t', c.pname))) L) t with
    | some v =>
      rw [hL] at h
      obtain rfl : v = srv := by cases h; rfl
      rcases ih hL with ⟨c', hc', hp⟩
      exact ⟨c', List.mem_cons_of_mem c hc', hp⟩
    | none =>
      rw [hL, dictGet_map_const] at h
      cases hq : elemStr c.catalog t
      · rw [hq, if_neg (by simp)] at h; cases h
      · rw [hq, if_pos rfl] at h
        obtain rfl : c.pname = srv := by cases h; rfl
        exact ⟨c, List.mem_cons_self c L, rfl⟩

/-- Filtering on connectivity-and-catalog in one pass equals filtering in two. -/
theorem filter_connects_elem (configs : List ProviderConfig) (t : String) :
    configs.filter (fun c => c.connects && elemStr c.catalog t) =
      (configs.filter (fun c => c.connects)).filter (fun c => elemStr c.catalog t) := by
  induction configs with
  | nil => rfl
  | cons c cs ih =>
    cases hc : c.connects <;> cases hq : elemStr c.catalog t <;>
      simp [List.filter_cons, hc, hq, ih]

/-!
## Claim theorems
-/

/-- C2: for every configured provider list in which some providers fail to
connect, `connect_all` (a total function here — the source's per-provider
`try/except` is the `connects` branch of `connectStep`, so no exception
escapes) produces a registry whose connections, tool list and
tool-to-provider mapping are exactly the concatenated contributions of the
successfully connected providers; a provider that fails to connect
contributes nothing, and a name that is no successful provider's name is
absent from the connections map. -/
theorem connect_all_partial_union (configs : List ProviderConfig) :
    (connect_all configs).connections =
      collect (fun c => [(c.pname, c.impl)]) (configs.filter (fun c => c.connects)) ∧
    (connect_all configs).tools =
      collect (fun c => c.catalog) (configs.filter (fun c => c.connects)) ∧
    (connect_all configs).toolToServer =
      collect (fun c => c.catalog.map (fun t => (t, c.pname)))
        (configs.filter (fun c => c.connects)) ∧
    (∀ p : String, (∀ c ∈ configs.filter (fun c => c.connects), c.pname ≠ p) →
      dictGet (connect_all configs).connections p = none) := by
  rw [connect_all_spec]
  refine ⟨rfl, rfl, rfl, fun p h => ?_⟩
  exact dictGet_conn_none _ p h

/-- C2 witness: with the calendar provider connecting and the maps provider
failing, the registry holds exactly the calendar tools and the maps provider
is absent from the connections map. -/
theorem connect_all_partial_union_witness :
    (connect_all [demoCalendar, demoMaps]).tools =
      ["get_events", "create_event", "update_event", "delete_event"] ∧
    dictGet (connect_all [demoCalendar, demoMaps]).connections "maps" = none := by
  have h := connect_all_partial_union [demoCalendar, demoMaps]
  exact ⟨h.2.1, h.2.2.2 "maps" (by decide)⟩

/-- C6: invoking an unregistered tool name returns the typed
"Tool not found: name" result and raises nothing (`none`, the model of an
uncaught exception, is impossible in both arms); invoking a registered name
forwards to the owning provider's behaviour and returns its result verbatim. -/
theorem call_tool_unknown_or_forwards (configs : List ProviderConfig) (name : String)
    (args : Args) :
    (dictGet (connect_all configs).toolToServer name = none →
      call_tool (connect_all configs) name args = some ("Tool not found: " ++ name)) ∧
    (∀ srv, dictGet (connect_all configs).toolToServer name = some srv →
      ∃ impl, dictGet (connect_all configs).connections srv = some impl ∧
        call_tool (connect_all configs) name args = some (impl name args)) := by
  constructor
  · intro h
    unfold call_tool
    rw [h]
  · intro srv h
    have hsome := h
    rw [connect_all_spec] at hsome
    rcases dictGet_t2s_some _ _ _ hsome with ⟨c, hc, hp⟩
    rcases dictGet_conn_of_mem _ c hc with ⟨impl, himpl⟩
    rw [hp] at himpl
    have himpl' : dictGet (connect_all configs).connections srv = some impl := by
      rw [connect_all_spec]; exact himpl
    refine ⟨impl, himpl', ?_⟩
    unfold call_tool
    rw [h]
    simp [himpl']

/-- C6 witness: an unregistered tool name produces the typed not-found result,
and the registered name "get_events" is forwarded to the calendar provider. -/
theorem call_tool_unknown_or_forwards_witness :
    call_tool (connect_all [demoCalendar, demoMaps]) "send_email" [] =
      some ("Tool not found: " ++ "send_email") ∧
    ∃ impl, dictGet (connect_all [demoCalendar, demoMaps]).connections "calendar" = some impl ∧
      call_tool (connect_all [demoCalendar, demoMaps]) "get_events" [] =
        some (impl "get_events" []) :=
  ⟨(call_tool_unknown_or_forwards [demoCalendar, demoMaps] "send_email" []).1 rfl,
   (call_tool_unknown_or_forwards [demoCalendar, demoMaps] "get_events" []).2 "calendar" rfl⟩

/-- C9: the registry's name-to-provider mapping records, for every tool name,
the last-registered provider among the successfully connected ones that
declares it (last-registered wins), and invoking such a name dispatches to the
connection registered under that provider's name. -/
theorem registry_last_registered_wins (configs : List ProviderConfig) (t : String)
    (args : Args) :
    dictGet (connect_all configs).toolToServer t =
      (lastOwnerCfg configs t).map (fun c => c.pname) ∧
    (∀ c : ProviderConfig, lastOwnerCfg configs t = some c →
      call_tool (connect_all configs) t args =
        (dictGet (connect_all configs).connections c.pname).map
          (fun impl => impl t args)) := by
  have hmain : dictGet (connect_all configs).toolToServer t =
      (lastOwnerCfg configs t).map (fun c => c.pname) := by
    rw [connect_all_spec]
    rw [dictGet_t2s_last]
    unfold lastOwnerCfg
    rw [filter_connects_elem]
  refine ⟨hmain, fun c hc => ?_⟩
  unfold call_tool
  rw [hmain, hc]
  rfl

/-- C9 witness: two connected providers both declare "get_events"; lookup and
dispatch go to the later one ("calendar2"). -/
theorem registry_last_registered_wins_witness :
    dictGet (connect_all [demoCalendar, demoCalendar2]).toolToServer "get_events" =
      some "calendar2" ∧
    call_tool (connect_all [demoCalendar, demoCalendar2]) "get_events" [] =
      (dictGet (connect_all [demoCalendar, demoCalendar2]).connections "calendar2").map
        (fun impl => impl "get_events" []) :=
  ⟨(registry_last_registered_wins [demoCalendar, demoCalendar2] "get_events" []).1,
   (registry_last_registered_wins [demoCalendar, demoCalendar2] "get_events" []).2
     demoCalendar2 rfl⟩

/-- C7 counterexample: with two connected providers of which the first one's
teardown raises, `disconnect_all` aborts after the first provider: the second
provider's teardown is never attempted, contradicting the claim that a
failure does not prevent the remaining teardown attempts. -/
theorem disconnect_all_abort_counterexample :
    disconnect_all [("calendar", false), ("maps", true)] = (["calendar"], false) ∧
    "maps" ∉ (disconnect_all [("calendar", false), ("maps", true)]).1 := by
  decide

/-- C7 amended: `disconnect_all` attempts providers in registration order only
up to and including the first one whose teardown raises; the exception
propagates (second component `false`) and the remaining providers are
skipped.  Only when every teardown succeeds is every provider attempted. -/
theorem disconnect_all_stops_at_first_failure (conns : List (String × Bool)) :
    (disconnect_all conns).1 =
      (conns.takeWhile (fun c => c.2)).map (fun c => c.1) ++
        (match conns.dropWhile (fun c => c.2) with
         | [] => []
         | c :: _ => [c.1]) ∧
    (disconnect_all conns).2 = conns.all (fun c => c.2) := by
  induction conns with
  | nil => exact ⟨rfl, rfl⟩
  | cons c rest ih =>
    obtain ⟨n, ok⟩ := c
    cases ok <;>
      simp [disconnect_all, List.takeWhile_cons, List.dropWhile_cons, List.all_cons, ih]

/-- C1 (violated by the code): in the Telegram channel
(`use_cli_approval = false`, see src/telegram_bot.py:71) `execute_create_event`
invokes the registry with the sensitive tool name "create_event" while never
consulting the approval gate — even a gate that would deny is bypassed — so
the trace is a single unapproved sensitive tool call; in the CLI channel
(`use_cli_approval = true`) the same input consults the gate first and a
denial prevents the call. -/
theorem telegram_channel_skips_approval_gate :
    "create_event" ∈ TOOLS_REQUIRING_APPROVAL ∧
    (execute_create_event false (fun _ a => (false, a)) (fun _ _ => "Event created")
        "2026-10-12" [demoEvent]).1 = [TraceEv.toolCall "create_event" demoEventArgs] ∧
    ((execute_create_event false (fun _ a => (false, a)) (fun _ _ => "Event created")
        "2026-10-12" [demoEvent]).1.all (fun e => !isGateEv e)) = true ∧
    (execute_create_event true (fun _ a => (false, a)) (fun _ _ => "Event created")
        "2026-10-12" [demoEvent]).1 =
      [TraceEv.gateCall "create_event" demoEventArgs false demoEventArgs] := by
  decide

/-- C5 counterexample: a classifier response containing the substring
"create_event" does not route to the create-event branch when
"check_schedule" also occurs, because the substring cascade tests
"check_schedule" first. -/
theorem create_event_shadowed_counterexample :
    hasSub "check_schedule or create_event".data "create_event".data = true ∧
    classify_intent_of "check_schedule or create_event" = "check_schedule" ∧
    route_by_intent (classify_intent_of "check_schedule or create_event") =
      "fetch_schedule" ∧
    route_by_intent (classify_intent_of "check_schedule or create_event") ≠
      "extract_event_info" := by
  decide

/-- C5 amended: after the source's strip/lower normalisation, a response
containing "create_event" routes to the create-event branch
(`extract_event_info`) provided "check_schedule" — the only earlier entry in
the fixed priority order — does not also occur; and a response containing
none of the four labels classifies as "general" and routes to
`generate_response`. -/
theorem create_event_routing (resp : String) :
    (hasSub (pyLower (pyStrip resp)).data "create_event".data = true →
      hasSub (pyLower (pyStrip resp)).data "check_schedule".data = false →
      classify_intent_of resp = "create_event" ∧
      route_by_intent (classify_intent_of resp) = "extract_event_info") ∧
    (hasSub (pyLower (pyStrip resp)).data "check_schedule".data = false →
      hasSub (pyLower (pyStrip resp)).data "create_event".data = false →
      hasSub (pyLower (pyStrip resp)).data "search_place".data = false →
      hasSub (pyLower (pyStrip resp)).data "get_directions".data = false →
      classify_intent_of resp = "general" ∧
      route_by_intent (classify_intent_of resp) = "generate_response") := by
  constructor
  · intro h1 h2
    have hc : classify_intent_of resp = "create_event" := by
      unfold classify_intent_of parse_intent
      rw [h1, h2]
      rfl
    exact ⟨hc, by rw [hc]; rfl⟩
  · intro h1 h2 h3 h4
    have hc : classify_intent_of resp = "general" := by
      unfold classify_intent_of parse_intent
      rw [h1, h2, h3, h4]
      rfl
    exact ⟨hc, by rw [hc]; rfl⟩

/-- C5 witness: the amended routing theorem at the concrete response
" Create_Event " (normalises to "create_event", no "check_schedule"). -/
theorem create_event_routing_witness :
    classify_intent_of " Create_Event " = "create_event" ∧
    route_by_intent (classify_intent_of " Create_Event ") = "extract_event_info" :=
  (create_event_routing " Create_Event ").1 (by decide) (by decide)

/-- C8 counterexample: the period-extraction response "next week to friday" is
neither a known shortcut nor parseable as a "YYYY-MM-DD to YYYY-MM-DD" range,
yet `fetch_schedule` does not fall back to the period "today": because the
text contains " to ", it is split and sent as a (garbage) start/end date
range. -/
theorem fetch_schedule_fallback_counterexample :
    fetch_schedule_call "next week to friday" =
      GetEventsCall.range "next week" "friday" ∧
    fetch_schedule_call "next week to friday" ≠ GetEventsCall.period "today" := by
  decide

/-- C8 amended: when the normalised period-extraction response does not
contain " to " and is not one of the four known shortcuts, `fetch_schedule`
invokes `get_events` with the safe fallback period "today" (a text containing
" to " is instead split and sent as a start/end date range, parseable or
not); and the node never raises: a tool error or an unparseable tool result
yields an empty event list. -/
theorem fetch_schedule_fallback (resp : String) (tool : GetEventsCall → Except String String)
    (parse : String → Option (List EventInfo)) :
    (hasSub (pyLower (pyStrip resp)).data " to ".data = false →
      (["today", "tomorrow", "week", "next_week"].contains (pyLower (pyStrip resp))) = false →
      fetch_schedule_call resp = GetEventsCall.period "today") ∧
    (∀ e, tool (fetch_schedule_call resp) = Except.error e →
      fetch_schedule_events resp tool parse = []) ∧
    (∀ r, tool (fetch_schedule_call resp) = Except.ok r → parse r = none →
      fetch_schedule_events resp tool parse = []) := by
  refine ⟨fun h1 h2 => ?_, fun e he => ?_, fun r hr hp => ?_⟩
  · simp [fetch_schedule_call, h1, h2]
    intro hc
    rcases hc with hc | hc | hc | hc <;> rw [hc] at h2 <;> exact absurd h2 (by decide)
  · unfold fetch_schedule_events
    rw [he]
  · unfold fetch_schedule_events
    rw [hr]
    simp [hp]

/-- C8 witness: the amended fallback theorem at the concrete response
"whenever" (no " to ", not a shortcut) and a failing tool. -/
theorem fetch_schedule_fallback_witness :
    fetch_schedule_call "whenever" = GetEventsCall.period "today" ∧
    fetch_schedule_events "whenever" (fun _ => Except.error "boom") (fun _ => none) = [] :=
  ⟨(fetch_schedule_fallback "whenever" (fun _ => Except.error "boom") (fun _ => none)).1
      (by decide) (by decide),
   (fetch_schedule_fallback "whenever" (fun _ => Except.error "boom") (fun _ => none)).2.1
      "boom" rfl⟩

/-- C10 counterexample: the first console input "N" differs from both "n" and
"e", yet `get_human_approval` cancels (returns `(false, args)`) rather than
approving, because the input is stripped and lower-cased before comparison. -/
theorem approval_uppercase_n_counterexample :
    ("N" ≠ "n" ∧ "N" ≠ "e") ∧
    get_human_approval "create_event" [("title", PyVal.S "Meeting")] (fun _ => "N") =
      (false, [("title", PyVal.S "Meeting")]) := by
  decide

/-- C10 amended: any first console input whose strip/lower normalisation is
neither "n" nor "e" — including the empty string and any unrecognised text —
is treated as approval, and `get_human_approval` returns `(true, args)` with
the arguments unchanged. -/
theorem approval_default_is_approve (tool : String) (args : Args) (inputs : Nat → String)
    (h1 : pyLower (pyStrip (inputs 0)) ≠ "n") (h2 : pyLower (pyStrip (inputs 0)) ≠ "e") :
    get_human_approval tool args inputs = (true, args) := by
  unfold get_human_approval
  rw [if_neg h1, if_neg h2]

/-- C10 witness: the amended approval theorem at the concrete first input
"yes". -/
theorem approval_default_is_approve_witness :
    get_human_approval "create_event" [("title", PyVal.S "x")] (fun _ => "yes") =
      (true, [("title", PyVal.S "x")]) :=
  approval_default_is_approve "create_event" [("title", PyVal.S "x")] (fun _ => "yes")
    (by decide) (by decide)

theorem findFirstPattern_cons_some (src : String) (re : List RE)
    (rest : List (String × List RE)) (s : Chars) (g : Groups)
    (h : reSearch re s = some g) :
    findFirstPattern ((src, re) :: rest) s = some (processGroups src g) := by
  unfold findFirstPattern
  rw [h]

theorem findFirstPattern_cons_none (src : String) (re : List RE)
    (rest : List (String × List RE)) (s : Chars)
    (h : reSearch re s = none) :
    findFirstPattern ((src, re) :: rest) s = findFirstPattern rest s := by
  rw [findFirstPattern, h]

/-- C3 counterexample: the spec's examples "1시간 30분" → 90 and "2 hour" → 120
fail on the code: the lone-minute pattern `(\d+)\s*분` precedes the
hour-minute pattern in the list and already matches "30분", yielding 30; and
no pattern matches a bare "N hour" (the English hour patterns require the
"Duration:" prefix and a following "min"), yielding absent. -/
theorem parse_duration_counterexample :
    parse_duration_minutes "1시간 30분" = some 30 ∧
    parse_duration_minutes "1시간 30분" ≠ some 90 ∧
    parse_duration_minutes "2 hour" = none ∧
    parse_duration_minutes "2 hour" ≠ some 120 := by
  decide

/-- C3 amended: the pattern list is tried in the documented order with the
first matching pattern winning (the two ordering conjuncts); a match with two
present groups returns hours*60+minutes, and a single-value match is
multiplied by 60 exactly when the pattern mentions an hour unit; concretely,
"Duration: 45 mins" → 45, but "1시간 30분" → 30 (the lone-minute pattern wins)
and "2 hour" → absent, while "1시간" → 60; no-match text and empty input give
absent. -/
theorem parse_duration_behaviour :
    parse_duration_minutes "Duration: 45 mins" = some 45 ∧
    parse_duration_minutes "1시간 30분" = some 30 ∧
    parse_duration_minutes "1시간" = some 60 ∧
    parse_duration_minutes "2 hour" = none ∧
    parse_duration_minutes "" = none ∧
    parse_duration_minutes "see you soon" = none ∧
    (∀ (src : String) (h m : Nat) (rest : Groups),
      processGroups src (some h :: some m :: rest) = h * 60 + m) ∧
    (∀ (src : String) (v : Nat) (rest : Groups), patternHourly src = true →
      processGroups src (some v :: none :: rest) = v * 60) ∧
    (∀ (src : String) (v : Nat) (rest : Groups), patternHourly src = false →
      processGroups src (some v :: none :: rest) = v) ∧
    (∀ (src : String) (v : Nat), patternHourly src = true →
      processGroups src [some v] = v * 60) ∧
    (∀ (src : String) (v : Nat), patternHourly src = false →
      processGroups src [some v] = v) ∧
    (∀ (s : String) (g : Groups), s.isEmpty = false → reSearch pat1.2 s.data = some g →
      parse_duration_minutes s = some (processGroups pat1.1 g)) ∧
    (∀ (s : String) (g : Groups), s.isEmpty = false →
      reSearch pat1.2 s.data = none → reSearch pat2.2 s.data = none →
      reSearch pat3.2 s.data = some g →
      parse_duration_minutes s = some (processGroups pat3.1 g)) := by
  refine ⟨by decide, by decide, by decide, by decide, by decide, by decide,
    fun src h m rest => rfl,
    fun src v rest hh => by simp [processGroups, hh],
    fun src v rest hh => by simp [processGroups, hh],
    fun src v hh => by simp [processGroups, hh],
    fun src v hh => by simp [processGroups, hh],
    fun s g hse h => ?_,
    fun s g hse h1 h2 h3 => ?_⟩
  · unfold parse_duration_minutes
    rw [if_neg (by simp [hse])]
    unfold duration_patterns
    exact findFirstPattern_cons_some pat1.1 pat1.2 _ _ _ h
  · unfold parse_duration_minutes
    rw [if_neg (by simp [hse])]
    unfold duration_patterns
    rw [findFirstPattern_cons_none pat1.1 pat1.2 _ _ h1,
        findFirstPattern_cons_none pat2.1 pat2.2 _ _ h2]
    exact findFirstPattern_cons_some pat3.1 pat3.2 _ _ _ h3

/-- C3 witness: the ordering conjunct at the concrete text "Duration: 52 mins"
(pattern 1 matches with group 52) and the hour-multiplication conjunct at
pattern 4's source string. -/
theorem parse_duration_behaviour_witness :
    parse_duration_minutes "Duration: 52 mins" = some (processGroups pat1.1 [some 52]) ∧
    processGroups pat4.1 [some 2] = 2 * 60 := by
  obtain ⟨-, -, -, -, -, -, -, -, -, h10, -, h12, -⟩ := parse_duration_behaviour
  exact ⟨h12 "Duration: 52 mins" [some 52] (by decide) (by decide),
         h10 pat4.1 2 (by decide)⟩

/-- Arithmetic of the departure computation: when the duration is positive
and one previous-day correction suffices (`d + b ≤ 60*H + M + 1440`), the
source's conditional `+ 24*60` equals reduction modulo 1440. -/
theorem depMinutes_eq_mod (H M d b : Nat) (hH : H < 24) (hM : M < 60) (hd : 0 < d)
    (hle : d + b ≤ 60 * H + M + 1440) :
    depMinutes (Int.ofNat H) (Int.ofNat M) d b =
      Int.ofNat ((60 * H + M + 1440 - (d + b)) % 1440) := by
  unfold depMinutes
  dsimp only
  simp only [Int.ofNat_eq_coe]
  split_ifs with hlt <;> omega

theorem fdiv_ofNat_sixty (a : Nat) : Int.fdiv (Int.ofNat a) 60 = Int.ofNat (a / 60) := by
  cases a with
  | zero => rw [Nat.zero_div]; rfl
  | succ n => rfl

theorem fmod_ofNat_sixty (a : Nat) : Int.fmod (Int.ofNat a) 60 = Int.ofNat (a % 60) := by
  cases a with
  | zero => rw [Nat.zero_mod]; rfl
  | succ n => rfl

/-- C4 counterexample: the claim fails at two inputs: an available duration of
0 returns absent (0 is falsy in the source's guard) instead of the formula
value "08:50", and a duration large enough that one `+ 24*60` correction does
not reach zero yields the non-wrapped string "-1:30" (Python's floor division
of the still-negative minute count) instead of the mod-1440 value "23:30". -/
theorem departure_time_counterexample :
    calculate_departure_time "09:00" (some 0) 10 = none ∧
    calculate_departure_time "09:00" (some 0) 10 ≠ some "08:50" ∧
    calculate_departure_time "09:00" (some 2000) 10 = some "-1:30" ∧
    calculate_departure_time "09:00" (some 2000) 10 ≠ some "23:30" := by
  decide

/-- C4 amended: for an event time parsing as a clock time H:M (H<24, M<60), a
positive duration d and buffer b with `d + b ≤ 60*H + M + 1440`, the result is
`(60*H + M − (d+b)) mod 1440` rendered as a zero-padded HH:MM string —
in particular ("09:00", 50, 10) ↦ "08:00" and ("00:10", 30, 10) ↦ "23:30"
(previous-day wrap); the result is absent for empty or non-HH:MM event times
(e.g. "All day"), for a missing duration, and also for a zero duration, while
beyond the one-correction bound the code emits a negative hour instead of
wrapping. -/
theorem departure_time_behaviour :
    calculate_departure_time "09:00" (some 50) 10 = some "08:00" ∧
    calculate_departure_time "00:10" (some 30) 10 = some "23:30" ∧
    calculate_departure_time "All day" (some 30) 10 = none ∧
    calculate_departure_time "" (some 30) 10 = none ∧
    (∀ (s : String) (b : Nat), calculate_departure_time s none b = none) ∧
    (∀ (s : String) (b : Nat), calculate_departure_time s (some 0) b = none) ∧
    (∀ (s : String) (H M d b : Nat), s.isEmpty = false →
      hasSub s.data [':'] = true →
      (splitCh ':' s.data).map pyParseIntChars = [some (Int.ofNat H), some (Int.ofNat M)] →
      H < 24 → M < 60 → 0 < d → d + b ≤ 60 * H + M + 1440 →
      calculate_departure_time s (some d) b =
        some (pyFmt02 (Int.ofNat ((60 * H + M + 1440 - (d + b)) % 1440 / 60)) ++ ":" ++
              pyFmt02 (Int.ofNat ((60 * H + M + 1440 - (d + b)) % 1440 % 60)))) := by
  refine ⟨by decide, by decide, by decide, by decide,
    fun s b => ?_, fun s b => ?_,
    fun s H M d b hse hcol hsplit hH hM hd hle => ?_⟩
  · cases hs : s.isEmpty <;> simp [calculate_departure_time, hs]
  · cases hs : s.isEmpty <;> simp [calculate_departure_time, hs]
  · obtain ⟨k, rfl⟩ : ∃ k, d = Nat.succ k := ⟨d - 1, by omega⟩
    have harith := depMinutes_eq_mod H M (Nat.succ k) b hH hM (by omega) hle
    simp only [calculate_departure_time, hse, Bool.false_eq_true, if_false, hcol,
      eq_self_iff_true, if_true, hsplit]
    rw [harith, fdiv_ofNat_sixty, fmod_ofNat_sixty]

/-- C4 witness: the general formula conjunct at the concrete event time
"08:30" with duration 20 and buffer 5. -/
theorem departure_time_behaviour_witness :
    calculate_departure_time "08:30" (some 20) 5 =
      some (pyFmt02 (Int.ofNat ((60 * 8 + 30 + 1440 - (20 + 5)) % 1440 / 60)) ++ ":" ++
            pyFmt02 (Int.ofNat ((60 * 8 + 30 + 1440 - (20 + 5)) % 1440 % 60))) := by
  obtain ⟨-, -, -, -, -, -, h7⟩ := departure_time_behaviour
  exact h7 "08:30" 8 30 20 5 (by decide) (by decide) (by decide) (by decide) (by decide)
    (by decide) (by decide)

end Agent
